/-
  Verification of the Alpine-Treeline-Elevational-Transects pipeline.

  Shallow embedding of the Earth Engine generation scripts, the R validation
  scripts, and the visualization app of this repository, with theorems about
  the claims of its specification.  Raster images are modelled as per-pixel
  functions or finite lists of pixels, feature collections as lists of
  features, and masked or null values as Option.
-/
import Mathlib

namespace ATET

/-! ### Five-year closed-forest mask (Step 1.2.1 and the centerline script) -/

namespace ForestMask

/-- Per-pixel indicator of the annual closed-forest classification:
land-cover class between 111 and 116 maps to 1, anything else to 0
(function extractCF / extractAnnualClosedForests). -/
def extractAnnualClosedForests (lcImg : ℤ) : ℤ :=
  if 111 ≤ lcImg ∧ lcImg ≤ 116 then 1 else 0

/-- The land-cover collection of 2015..2019 at one pixel: the five annual
class values, in the order the scripts list them. -/
def landCover15to19 (readAnnualLC : ℕ → ℤ) : List ℤ :=
  [readAnnualLC 2015, readAnnualLC 2016, readAnnualLC 2017,
   readAnnualLC 2018, readAnnualLC 2019]

/-- The years covered by the land-cover collection. -/
def lcYears : List ℕ := [2015, 2016, 2017, 2018, 2019]

/-- Pixel-wise minimum of an image collection; an empty collection has
no value (fully masked pixel). -/
def icMin : List ℤ → Option ℤ
  | [] => none
  | x :: xs => some (xs.foldl min x)

/-- The five-year closed-forest mask CF_5yr: the pixel-wise min() of the
five annual 0/1 closed-forest images. -/
def extractClosedForests_inAllYears (readAnnualLC : ℕ → ℤ) : Option ℤ :=
  icMin ((landCover15to19 readAnnualLC).map extractAnnualClosedForests)

/-- Whether one pixel is classified as closed forest in every year
from 2015 to 2019. -/
def closedForestAllYears (readAnnualLC : ℕ → ℤ) : Prop :=
  ∀ y ∈ lcYears, 111 ≤ readAnnualLC y ∧ readAnnualLC y ≤ 116

instance (readAnnualLC : ℕ → ℤ) : Decidable (closedForestAllYears readAnnualLC) := by
  unfold closedForestAllYears
  infer_instance

/-- The local forest elevation (Step 1.2.1): the ALOS elevation masked by
the fundamental niche edge and then by the five-year closed-forest mask.
A pixel keeps its elevation exactly when the niche-edge mask holds and the
closed-forest mask value is nonzero. -/
def local_Forest_Elv (ALOSelv : ℚ) (fund_Niche_Edge : Bool)
    (readAnnualLC : ℕ → ℤ) : Option ℚ :=
  match extractClosedForests_inAllYears readAnnualLC with
  | none => none
  | some cf => if fund_Niche_Edge = true ∧ cf ≠ 0 then some ALOSelv else none

end ForestMask

/-! ### Sign-corrected segment differences (01_Transect_Segment_Joining.R) -/

namespace SegmentDiffSign

/-- Elv_Diff of a joined segment pair: average elevation of segment 1 minus
average elevation of segment 2. -/
def Elv_Diff (Elv_1 Elv_2 : ℚ) : ℚ :=
  Elv_1 - Elv_2

/-- Diff_Sign of a joined segment pair: Elv_Diff divided by its absolute
value. -/
def Diff_Sign (Elv_1 Elv_2 : ℚ) : ℚ :=
  Elv_Diff Elv_1 Elv_2 / |Elv_Diff Elv_1 Elv_2|

/-- The derived vegetation difference (NDVI_diff or VCH_diff): the raw
difference of the two segment values multiplied by Diff_Sign. -/
def vege_diff (val_1 val_2 Elv_1 Elv_2 : ℚ) : ℚ :=
  (val_1 - val_2) * Diff_Sign Elv_1 Elv_2

end SegmentDiffSign

/-! ### Segment joining and null-filtering (01_Transect_Segment_Joining.R) -/

namespace SegmentJoining

/-- One processed transect-segment row after column selection: transect ID,
grouping value (theta or ratio), segment type, and the averaged elevation and
vegetation value, either of which may be missing (NA). -/
structure SegRow where
  ET_ID : ℕ
  group : ℚ
  Segment_ID : ℕ
  avg_Elv : Option ℚ
  avg_Val : Option ℚ
deriving DecidableEq, Repr

/-- A row of the merged table: one segment pair of a transect, with the
elevation and vegetation value of each of the two segments. -/
structure JoinedRow where
  ET_ID : ℕ
  group : ℚ
  Elv_1 : Option ℚ
  Val_1 : Option ℚ
  Elv_2 : Option ℚ
  Val_2 : Option ℚ
deriving DecidableEq, Repr

/-- The inner merge of the Segment_ID = 1 rows with the Segment_ID = 2 rows
on the keys ET_ID and the grouping value (merge with all = FALSE). -/
def mergeSegments (rows : List SegRow) : List JoinedRow :=
  let seg1 := rows.filter (fun r => r.Segment_ID == 1)
  let seg2 := rows.filter (fun r => r.Segment_ID == 2)
  (seg1.map (fun r1 =>
    (seg2.filter (fun r2 => r2.ET_ID == r1.ET_ID && r2.group == r1.group)).map
      (fun r2 => JoinedRow.mk r1.ET_ID r1.group r1.avg_Elv r1.avg_Val
        r2.avg_Elv r2.avg_Val))).flatten

/-- Whether a merged row has no NA: all four joined columns are present. -/
def JoinedRow.complete (r : JoinedRow) : Bool :=
  r.Elv_1.isSome && r.Val_1.isSome && r.Elv_2.isSome && r.Val_2.isSome

/-- The first drop_na call: keep exactly the merged rows without NAs. -/
def drop_na_joined (rows : List JoinedRow) : List JoinedRow :=
  rows.filter JoinedRow.complete

/-- A row of the difference table after the mutate and column selection:
the sign-corrected vegetation difference may be NA. -/
structure DiffRow where
  ET_ID : ℕ
  group : ℚ
  Val_diff : Option ℚ
deriving DecidableEq, Repr

/-- NA-propagating subtraction. -/
def naSub : Option ℚ → Option ℚ → Option ℚ
  | some a, some b => some (a - b)
  | _, _ => none

/-- NA-propagating Diff_Sign: dividing a zero elevation difference by its
absolute value is 0/0, an undefined (NaN) result, modelled as none. -/
def naDiffSign : Option ℚ → Option ℚ
  | some d => if d = 0 then none else some (d / |d|)
  | none => none

/-- NA-propagating multiplication. -/
def naMul : Option ℚ → Option ℚ → Option ℚ
  | some a, some b => some (a * b)
  | _, _ => none

/-- The mutate step computing Elv_Diff, Diff_Sign, and the sign-corrected
vegetation difference, followed by the column selection. -/
def mutateDiff (r : JoinedRow) : DiffRow :=
  let elvDiff := naSub r.Elv_1 r.Elv_2
  DiffRow.mk r.ET_ID r.group (naMul (naSub r.Val_1 r.Val_2) (naDiffSign elvDiff))

/-- The second drop_na call: keep exactly the difference rows whose
sign-corrected difference is defined. -/
def drop_na_diff (rows : List DiffRow) : List DiffRow :=
  rows.filter (fun r => r.Val_diff.isSome)

/-- Sections 3 to 5 of the joining script for one vegetation variable:
merge the two segment types, drop NAs, compute the sign-corrected
difference, and drop the NAs the zero elevation differences produced. -/
def segmentDiffPipeline (rows : List SegRow) : List DiffRow :=
  drop_na_diff ((drop_na_joined (mergeSegments rows)).map mutateDiff)

end SegmentJoining

/-! ### Transect-centerline construction (the per-basin buffering script) -/

namespace CenterlineConstruction

/-- Feature properties: an association list from property names to scalar
values; a lookup finds the first (most recently set) entry. -/
abbrev Props := List (String × ℚ)

/-- Look up a property; none models a missing (null) property. -/
def getProp (ps : Props) (k : String) : Option ℚ :=
  (ps.find? (fun kv => kv.1 == k)).map Prod.snd

/-- Squared planar distance between two points (coordinates are taken in a
planar metric measured in meters, so that buffer containment can be tested
without square roots). -/
def sqDistPts (p q : ℚ × ℚ) : ℚ :=
  (p.1 - q.1) * (p.1 - q.1) + (p.2 - q.2) * (p.2 - q.2)

/-- One pixel of the combined CF_nonF_elvCoords image: its position, its
ALOS elevation, and the two masks (closed forest on non-ridge landforms,
non-forested area on ridge landforms). -/
structure RasterPixel where
  lon : ℚ
  lat : ℚ
  elv : ℚ
  CF_mask : Bool
  nonF_mask : Bool
deriving DecidableEq, Repr

/-- The CF_elv / CF_lat / CF_long bands at one pixel: the elevation and the
pixel coordinates, present exactly where the closed-forest mask holds
(function create_CF_elvCoords). -/
def create_CF_elvCoords (p : RasterPixel) : Option (ℚ × ℚ × ℚ) :=
  if p.CF_mask then some (p.elv, p.lat, p.lon) else none

/-- The nonF_elv / nonF_lat / nonF_long bands at one pixel, present exactly
where the non-forested mask holds (function create_nonF_elvCoords). -/
def create_nonF_elvCoords (p : RasterPixel) : Option (ℚ × ℚ × ℚ) :=
  if p.nonF_mask then some (p.elv, p.lat, p.lon) else none

/-- One step of the min-reducer: keep the pixel triple with the smaller
first component (the elevation), the earlier one on ties. -/
def minStep (acc : Option (ℚ × ℚ × ℚ)) (t : ℚ × ℚ × ℚ) : Option (ℚ × ℚ × ℚ) :=
  match acc with
  | none => some t
  | some b => if t.1 < b.1 then some t else some b

/-- One step of the max-reducer, dual to minStep. -/
def maxStep (acc : Option (ℚ × ℚ × ℚ)) (t : ℚ × ℚ × ℚ) : Option (ℚ × ℚ × ℚ) :=
  match acc with
  | none => some t
  | some b => if b.1 < t.1 then some t else some b

/-- The min-reducer with three inputs: the minimum of the first input
(elevation) together with the corresponding values of the other inputs
(the pixel coordinates). -/
def reduceMin (l : List (ℚ × ℚ × ℚ)) : Option (ℚ × ℚ × ℚ) :=
  l.foldl minStep none

/-- The max-reducer with three inputs, dual to reduceMin. -/
def reduceMax (l : List (ℚ × ℚ × ℚ)) : Option (ℚ × ℚ × ℚ) :=
  l.foldl maxStep none

/-- A vectorized medial-axis pixel centroid: a point feature with
properties (among them medialAxis_sqDist_inPixels and count). -/
structure PxCtdFtr where
  lon : ℚ
  lat : ℚ
  props : Props
deriving DecidableEq, Repr

/-- A buffered centroid: the centroid feature together with the squared
distance (in pixels) read from its medialAxis_sqDist_inPixels property;
the buffer radius is the square root of that number times 30 m. -/
structure BufferFtr where
  ctd : PxCtdFtr
  sqDist : ℚ
deriving DecidableEq, Repr

/-- Buffer each centroid by the square root of its
medialAxis_sqDist_inPixels property multiplied by 30 (meters); a centroid
missing the property yields no buffer (the script would fail there). -/
def pxCtd_Buffers (ctds : List PxCtdFtr) : List BufferFtr :=
  ctds.filterMap (fun c =>
    (getProp c.props "medialAxis_sqDist_inPixels").map
      (fun sq => BufferFtr.mk c sq))

/-- A pixel lies in a buffer when its distance to the buffered centroid is
at most the buffer radius sqrt(sqDist) * 30, tested on squares:
squared distance at most sqDist * 900. -/
def inBuffer (b : BufferFtr) (p : RasterPixel) : Bool :=
  decide (sqDistPts (p.lon, p.lat) (b.ctd.lon, b.ctd.lat) ≤ b.sqDist * 900)

/-- A buffer feature after reduceRegions with the combined reducer: the
reducer outputs for the closed-forest minimum and non-forested maximum. -/
structure ReducedBuffer where
  buffer : BufferFtr
  CF : Option (ℚ × ℚ × ℚ)
  nonF : Option (ℚ × ℚ × ℚ)
deriving DecidableEq, Repr

/-- The reduceRegions call: each buffer is reduced over the image pixels it
contains, with the combined (min of CF bands, max of nonF bands) reducer. -/
def reduceRegions_combined (img : List RasterPixel) (bufs : List BufferFtr) :
    List ReducedBuffer :=
  bufs.map (fun b =>
    let pxs := img.filter (inBuffer b)
    ReducedBuffer.mk b (reduceMin (pxs.filterMap create_CF_elvCoords))
      (reduceMax (pxs.filterMap create_nonF_elvCoords)))

/-- The property list of a reduced buffer feature: the reducer outputs
(set last, hence found first) followed by the centroid's own properties. -/
def ReducedBuffer.props (r : ReducedBuffer) : Props :=
  (match r.CF with
   | some t => [("CF_elv", t.1), ("CF_lat", t.2.1), ("CF_long", t.2.2)]
   | none => []) ++
  (match r.nonF with
   | some t => [("nonF_elv", t.1), ("nonF_lat", t.2.1), ("nonF_long", t.2.2)]
   | none => []) ++
  r.buffer.ctd.props

/-- The buffer-selection filter: both the minimum closed-forest elevation
and the maximum non-forested elevation are non-null, and the latter is
strictly greater than the former. -/
def selectBuffer (r : ReducedBuffer) : Bool :=
  match getProp r.props "nonF_elv", getProp r.props "CF_elv" with
  | some nf, some cf => decide (cf < nf)
  | _, _ => false

/-- A transect-centerline feature: a two-point LineString from the
closed-forest endpoint to the non-forested endpoint, with properties. -/
structure CLFtr where
  geometry : (ℚ × ℚ) × (ℚ × ℚ)
  props : Props
deriving DecidableEq, Repr

/-- The property names excluded by the copyProperties call. -/
def copyExclude : List String :=
  ["count", "medialAxis_sqDist_inPixels"]

/-- The property names the combined reducer writes onto a buffer feature;
the upstream centroids do not carry properties with these names. -/
def reservedKeys : List String :=
  ["CF_elv", "CF_lat", "CF_long", "nonF_elv", "nonF_lat", "nonF_long"]

/-- Construct one centerline from a selected buffer: a LineString between
the two endpoint pixels, the CL_length and elvRange attributes, and the
buffer's properties copied except count and medialAxis_sqDist_inPixels.
A missing endpoint property yields no feature (the script would fail). -/
def mkCL (lineLength : (ℚ × ℚ) → (ℚ × ℚ) → ℚ) (r : ReducedBuffer) :
    Option CLFtr :=
  match getProp r.props "CF_long", getProp r.props "CF_lat",
      getProp r.props "nonF_long", getProp r.props "nonF_lat",
      getProp r.props "nonF_elv", getProp r.props "CF_elv" with
  | some cflo, some cfla, some nflo, some nfla, some nfe, some cfe =>
    some (CLFtr.mk ((cflo, cfla), (nflo, nfla))
      ([("CL_length", lineLength (cflo, cfla) (nflo, nfla)),
        ("elvRange", nfe - cfe)] ++
        r.props.filter (fun kv => !(copyExclude.contains kv.1))))
  | _, _, _, _, _, _ => none

/-- The randomColumn call: append a CL_ID property to every feature, the
value drawn from a (here: abstract) random sequence indexed by position. -/
def randomColumn (rnd : ℕ → ℚ) : ℕ → List CLFtr → List CLFtr
  | _, [] => []
  | i, f :: fs =>
    CLFtr.mk f.geometry (f.props ++ [("CL_ID", rnd i)]) ::
      randomColumn rnd (i + 1) fs

/-- A water basin, abstracted to its membership test for point features
(filterBounds against the basin geometry). -/
structure Basin where
  memb : PxCtdFtr → Bool

/-- The centerlines of one basin: filter the centroids to the basin,
buffer them, reduce the combined image over each buffer, keep the buffers
with both extremes present and the non-forested maximum above the
closed-forest minimum, and connect the two extreme pixels of each. -/
def transectCLs_perBasin (lineLength : (ℚ × ℚ) → (ℚ × ℚ) → ℚ)
    (img : List RasterPixel) (allPxCtds : List PxCtdFtr) (basin : Basin) :
    List CLFtr :=
  let pxCtds_perBasin := allPxCtds.filter basin.memb
  let elvMinMax_perBuffer :=
    reduceRegions_combined img (pxCtd_Buffers pxCtds_perBasin)
  let selectedBuffers := elvMinMax_perBuffer.filter selectBuffer
  selectedBuffers.filterMap (mkCL lineLength)

/-- Function constructTransectCLs_byBasin: map over the basins, flatten,
and add the CL_ID random column. -/
def constructTransectCLs_byBasin (lineLength : (ℚ × ℚ) → (ℚ × ℚ) → ℚ)
    (rnd : ℕ → ℚ) (allBasins : List Basin) (allPxCtds : List PxCtdFtr)
    (img : List RasterPixel) : List CLFtr :=
  randomColumn rnd 0
    ((allBasins.map (transectCLs_perBasin lineLength img allPxCtds)).flatten)

end CenterlineConstruction

/-! ### Steepest-transect selection (Step 4.1) -/

namespace SteepestSelection

/-- A raw transect centerline with its basin ID, centerline ID, length and
elevational range. -/
structure Centerline where
  CL_ID : ℚ
  HYBAS_ID : ℚ
  CL_length : ℚ
  elvRange : ℚ
deriving DecidableEq, Repr

/-- A raw centerline segment: the mid-quarter piece of a centerline,
carrying its centerline's CL_ID, basin ID and elevational range. -/
structure Segment where
  CL_ID : ℚ
  HYBAS_ID : ℚ
  elvRange : ℚ
deriving DecidableEq, Repr

/-- A grouped centerline-segment buffer: one spatial group within a basin. -/
structure GroupedBuffer where
  HYBAS_ID : ℚ
  groupId : ℕ
deriving DecidableEq, Repr

/-- One step of the save-first ordering fold: keep the segment with the
greater elvRange, the earlier one on ties. -/
def maxElvStep (acc : Option Segment) (s : Segment) : Option Segment :=
  match acc with
  | none => some s
  | some b => if b.elvRange < s.elvRange then some s else some b

/-- The save-first ordering: fold keeping a segment of maximal elvRange
(ordering by elvRange, descending). -/
def pickMaxByElvRange (l : List Segment) : Option Segment :=
  l.foldl maxElvStep none

/-- The saveFirst join for one primary feature: among the secondary
segments satisfying the intersects condition, attach the one that comes
first when ordered by elvRange descending. -/
def saveFirst_steepestSegment (intersects : GroupedBuffer → Segment → Bool)
    (segs : List Segment) (gb : GroupedBuffer) : Option Segment :=
  pickMaxByElvRange (segs.filter (intersects gb))

/-- For one grouped buffer: attach the steepest intersecting segment and
select the first centerline carrying that segment's CL_ID. -/
def steepestForGroup (intersects : GroupedBuffer → Segment → Bool)
    (cls : List Centerline) (segs : List Segment) (gb : GroupedBuffer) :
    Option Centerline :=
  (saveFirst_steepestSegment intersects segs gb).bind (fun s =>
    (cls.filter (fun c => c.CL_ID == s.CL_ID)).head?)

/-- Part 1 of Step 4.1: per distinct basin ID, restrict the centerlines,
segments and grouped buffers to the basin, join each grouped buffer with
its steepest intersecting segment, and keep the centerline with the same
CL_ID; then flatten over basins. -/
def identifySteepestCenterlines (intersects : GroupedBuffer → Segment → Bool)
    (cls : List Centerline) (segs : List Segment)
    (gbs : List GroupedBuffer) : List Centerline :=
  let basinIDs := (gbs.map (fun g => g.HYBAS_ID)).dedup
  (basinIDs.map (fun b =>
    let cls_b := cls.filter (fun c => c.HYBAS_ID == b)
    let segs_b := segs.filter (fun s => s.HYBAS_ID == b)
    let gbs_b := gbs.filter (fun g => g.HYBAS_ID == b)
    gbs_b.filterMap (steepestForGroup intersects cls_b segs_b))).flatten

/-- The centerline length thresholds, in meters. -/
def lowerThres_Num : ℚ := 300

/-- Upper centerline length threshold, in meters. -/
def upperThres_Num : ℚ := 3000

/-- Part 2 of Step 4.1: keep the centerlines whose CL_length lies between
300 and 3000 meters, both bounds inclusive. -/
def length_Filter (cls : List Centerline) : List Centerline :=
  cls.filter (fun c =>
    decide (lowerThres_Num ≤ c.CL_length) && decide (c.CL_length ≤ upperThres_Num))

/-- A transect polygon: a centerline buffered by a distance in meters. -/
structure Transect where
  centerline : Centerline
  bufferDistance_Num : ℚ
deriving DecidableEq, Repr

/-- Part 3 of Step 4.1: buffer each selected centerline by 45 m. -/
def steepestTransects (intersects : GroupedBuffer → Segment → Bool)
    (cls : List Centerline) (segs : List Segment)
    (gbs : List GroupedBuffer) : List Transect :=
  (length_Filter (identifySteepestCenterlines intersects cls segs gbs)).map
    (fun c => Transect.mk c 45)

end SteepestSelection

/-! ### Visualization app (README: the Earth Engine app script) -/

namespace VisApp

/-- A published transect feature as the app reads it: attributes inspected
by the click handler, and a geometry abstracted to a finite set of points
in a planar metric measured in meters. -/
structure Transect where
  ET_ID : ℚ
  Elv_Range : ℚ
  H_Length : ℚ
  Avg_Slope : ℚ
  GMBA_Regn : String
  GMBA_Name : String
  LEnd_Elv : ℚ
  UEnd_Elv : ℚ
  L_CanopyHt : ℚ
  U_CanopyHt : ℚ
  L_NDVI : ℚ
  U_NDVI : ℚ
  geom : List (ℚ × ℚ)
deriving DecidableEq, Repr

/-- Property access on a transect feature by property name. -/
def Transect.get (t : Transect) (name : String) : Option ℚ :=
  if name = "ET_ID" then some t.ET_ID
  else if name = "Elv_Range" then some t.Elv_Range
  else if name = "H_Length" then some t.H_Length
  else if name = "Avg_Slope" then some t.Avg_Slope
  else if name = "LEnd_Elv" then some t.LEnd_Elv
  else if name = "UEnd_Elv" then some t.UEnd_Elv
  else if name = "L_CanopyHt" then some t.L_CanopyHt
  else if name = "U_CanopyHt" then some t.U_CanopyHt
  else if name = "L_NDVI" then some t.L_NDVI
  else if name = "U_NDVI" then some t.U_NDVI
  else none

/-- One entry of m.diffTypes: the axis label, the property suffix, and the
chart color of a difference type. -/
structure DiffType where
  varName : String
  suffix : String
  color : String
deriving DecidableEq, Repr

/-- The Canopy Height Difference entry of m.diffTypes. -/
def diffTypeCH : DiffType :=
  DiffType.mk "canopy height (m)" "CanopyHt" "#08306b"

/-- The NDVI Difference entry of m.diffTypes. -/
def diffTypeNDVI : DiffType :=
  DiffType.mk "NDVI" "NDVI" "#00441b"

/-- The two-point chart drawn by the inspector: x-labels, y-values, line
color and vertical-axis variable name. -/
structure Chart where
  x : List (Option ℚ)
  y : List (Option ℚ)
  color : String
  varName : String
deriving DecidableEq, Repr

/-- The inspector-related user-interface state touched by the handler. -/
structure InspectorState where
  panelShown : Bool
  containerShown : Bool
  buttonLabel : String
  ID : Option ℚ
  range : Option ℤ
  length : Option ℤ
  slope : Option ℤ
  region : Option String
  mountain : Option String
  clickedLayer : Option (ℚ × ℚ)
  chart : Option Chart
deriving DecidableEq, Repr

/-- Squared planar distance between two points. -/
def sqDistPts (p q : ℚ × ℚ) : ℚ :=
  (p.1 - q.1) * (p.1 - q.1) + (p.2 - q.2) * (p.2 - q.2)

/-- Squared distance from a point to a transect geometry; none for an
empty geometry. -/
def minSqDistToGeom (pt : ℚ × ℚ) (geom : List (ℚ × ℚ)) : Option ℚ :=
  match geom.map (sqDistPts pt) with
  | [] => none
  | d :: ds => some (ds.foldl min d)

/-- Whether the clicked point buffered by 90 m (the transect width)
intersects a transect: its distance to the geometry is at most 90 m,
tested on squares (at most 8100). -/
def intersects90 (pt : ℚ × ℚ) (t : Transect) : Bool :=
  match minSqDistToGeom pt t.geom with
  | some d => decide (d ≤ 8100)
  | none => false

/-- The map-click handler inspectTransect: return unchanged when the
coordinates are absent or the longitude is zero (the falsy-lon guard) or
when no transect intersects the buffered click; otherwise show the
inspector, fill the attribute fields from the first intersecting transect,
and draw the two-point chart of the selected difference type. -/
def inspectTransect (ATETs : List Transect) (diffType : DiffType)
    (coords : Option (ℚ × ℚ)) (st : InspectorState) : InspectorState :=
  match coords with
  | none => st
  | some (lon, lat) =>
    if lon = 0 then st
    else
      match ATETs.filter (intersects90 (lon, lat)) with
      | [] => st
      | t :: _ =>
        InspectorState.mk true true "Hide information"
          (some t.ET_ID)
          (some (round t.Elv_Range))
          (some (round t.H_Length))
          (some (round t.Avg_Slope))
          (some t.GMBA_Regn)
          (some t.GMBA_Name)
          (some (lon, lat))
          (some (Chart.mk
            [t.get "LEnd_Elv", t.get "UEnd_Elv"]
            [t.get ("L_" ++ diffType.suffix), t.get ("U_" ++ diffType.suffix)]
            diffType.color diffType.varName))

/-- Modelled from the spec: the nearest transect to a clicked point, i.e.
a transect whose geometry minimizes the distance to the point (the spec
says the handler looks up the nearest transect); transects with empty
geometry are never nearest. -/
def nearestTransect_spec (pt : ℚ × ℚ) (ATETs : List Transect) :
    Option Transect :=
  ATETs.foldl (fun acc t =>
    match minSqDistToGeom pt t.geom with
    | none => acc
    | some d =>
      match acc with
      | none => some (t, d)
      | some (b, db) => if d < db then some (t, d) else some (b, db)) none
    |>.map Prod.fst

/-- The checkbox state of the app widgets. -/
structure CheckboxState where
  transectCheckbox : Bool
  centroidCheckbox : Bool
  mountainLevel : Bool
  watershedLevel : Bool
  transectDiff : Bool
deriving DecidableEq, Repr

/-- Handler updateTransectDiffCheckbox: when the raw-transect checkbox is
checked, force the transect-level difference checkbox to false; otherwise
keep its original state. -/
def updateTransectDiffCheckbox (s : CheckboxState) : CheckboxState :=
  CheckboxState.mk s.transectCheckbox s.centroidCheckbox s.mountainLevel
    s.watershedLevel (if s.transectCheckbox then false else s.transectDiff)

/-- Handler updateRawTransectCheckbox: when the transect-level difference
checkbox is checked, force the raw-transect checkbox to false; otherwise
keep its original state. -/
def updateRawTransectCheckbox (s : CheckboxState) : CheckboxState :=
  CheckboxState.mk (if s.transectDiff then false else s.transectCheckbox)
    s.centroidCheckbox s.mountainLevel s.watershedLevel s.transectDiff

/-- A user checkbox change. -/
inductive CheckboxEvent where
  | setRawTransect (b : Bool)
  | setCentroid (b : Bool)
  | setMountainLevel (b : Bool)
  | setWatershedLevel (b : Bool)
  | setTransectDiff (b : Bool)
deriving DecidableEq, Repr

/-- One checkbox change followed by its registered onChange handlers (the
layer updates do not touch checkbox state; the two checkbox handlers do).
A forced setValue would re-trigger the other handler, but with the forcing
value false that handler leaves the state unchanged, so the cascade is
already at its fixed point after one round. -/
def checkboxStep (s : CheckboxState) : CheckboxEvent → CheckboxState
  | CheckboxEvent.setRawTransect b =>
    updateTransectDiffCheckbox
      (CheckboxState.mk b s.centroidCheckbox s.mountainLevel
        s.watershedLevel s.transectDiff)
  | CheckboxEvent.setCentroid b =>
    CheckboxState.mk s.transectCheckbox b s.mountainLevel
      s.watershedLevel s.transectDiff
  | CheckboxEvent.setMountainLevel b =>
    CheckboxState.mk s.transectCheckbox s.centroidCheckbox b
      s.watershedLevel s.transectDiff
  | CheckboxEvent.setWatershedLevel b =>
    CheckboxState.mk s.transectCheckbox s.centroidCheckbox s.mountainLevel
      b s.transectDiff
  | CheckboxEvent.setTransectDiff b =>
    updateRawTransectCheckbox
      (CheckboxState.mk s.transectCheckbox s.centroidCheckbox
        s.mountainLevel s.watershedLevel b)

/-- The widget constructor values: raw transects on, centroids off,
mountain level off, watershed level on, transect-level difference off. -/
def widgetInit : CheckboxState :=
  CheckboxState.mk true false false true false

/-- The checkbox effects of the Initialize section, in call order:
updateRawTransectCheckbox, then updateTransectDiffCheckbox. -/
def appInitialize (s : CheckboxState) : CheckboxState :=
  updateTransectDiffCheckbox (updateRawTransectCheckbox s)

/-- The checkbox state after initialization and a sequence of changes. -/
def runCheckboxes (evs : List CheckboxEvent) : CheckboxState :=
  evs.foldl checkboxStep (appInitialize widgetInit)

end VisApp

/-! ### Concrete inputs used by witnesses and counterexamples -/

namespace Concrete

/-- A basin containing every centroid. -/
def wBasin : CenterlineConstruction.Basin :=
  CenterlineConstruction.Basin.mk (fun _ => true)

/-- One medial-axis pixel centroid at the origin, two pixels away (squared)
from the nearest ridges/valleys. -/
def wCtd : CenterlineConstruction.PxCtdFtr :=
  CenterlineConstruction.PxCtdFtr.mk 0 0
    [("medialAxis_sqDist_inPixels", 4), ("count", 1)]

/-- A closed-forest pixel 30 m east of the centroid at elevation 100. -/
def wPxCF : CenterlineConstruction.RasterPixel :=
  CenterlineConstruction.RasterPixel.mk 30 0 100 true false

/-- A non-forested pixel 30 m north of the centroid at elevation 200. -/
def wPxNonF : CenterlineConstruction.RasterPixel :=
  CenterlineConstruction.RasterPixel.mk 0 30 200 false true

/-- A concrete LineString length function. -/
def wLineLength : (ℚ × ℚ) → (ℚ × ℚ) → ℚ :=
  fun _ _ => 42

/-- A concrete random sequence for the CL_ID column. -/
def wRnd : ℕ → ℚ :=
  fun _ => 9

/-- The centerlines constructed from the one-basin scene above. -/
def wOut : List CenterlineConstruction.CLFtr :=
  CenterlineConstruction.constructTransectCLs_byBasin wLineLength wRnd
    [wBasin] [wCtd] [wPxCF, wPxNonF]

/-- The single centerline the scene yields. -/
def wCL : CenterlineConstruction.CLFtr :=
  CenterlineConstruction.CLFtr.mk ((30, 0), (0, 30))
    [("CL_length", 42), ("elvRange", 100),
     ("CF_elv", 100), ("CF_lat", 0), ("CF_long", 30),
     ("nonF_elv", 200), ("nonF_lat", 30), ("nonF_long", 0),
     ("CL_ID", 9)]

/-- An intersects condition holding everywhere. -/
def sIntersects :
    SteepestSelection.GroupedBuffer → SteepestSelection.Segment → Bool :=
  fun _ _ => true

/-- One centerline segment in basin 7. -/
def sSeg : SteepestSelection.Segment :=
  SteepestSelection.Segment.mk 1 7 100

/-- The centerline the segment belongs to, 500 m long. -/
def sCl : SteepestSelection.Centerline :=
  SteepestSelection.Centerline.mk 1 7 500 100

/-- One grouped segment buffer in basin 7. -/
def sGb : SteepestSelection.GroupedBuffer :=
  SteepestSelection.GroupedBuffer.mk 7 0

/-- A transect 80 m from the click at (1, 0): inside the 90-m buffer but
not the nearest. -/
def tFar : VisApp.Transect :=
  VisApp.Transect.mk 1 0 0 0 "" "" 1000 1500 20 10 (8/10) (6/10) [(81, 0)]

/-- A transect 10 m from the click at (1, 0): the nearest one. -/
def tNear : VisApp.Transect :=
  VisApp.Transect.mk 2 0 0 0 "" "" 0 0 0 0 0 0 [(11, 0)]

/-- The inspector state before any click. -/
def st0 : VisApp.InspectorState :=
  VisApp.InspectorState.mk false false "Show information"
    none none none none none none none none

end Concrete

end ATET

namespace ATET

/-! ### Helper lemmas -/

section Helpers

open CenterlineConstruction SteepestSelection

theorem getProp_cons (k0 : String) (v0 : ℚ) (ps : Props) (k : String) :
    getProp ((k0, v0) :: ps) k =
      if (k0 == k) = true then some v0 else getProp ps k := by
  unfold getProp
  rcases h : (k0 == k) with _ | _
  · rw [List.find?_cons_of_neg _ (by simpa using h)]
    simp [h]
  · rw [List.find?_cons_of_pos _ (by simpa using h)]
    simp [h]

theorem getProp_append (ps qs : Props) (k : String) :
    getProp (ps ++ qs) k =
      match getProp ps k with
      | some v => some v
      | none => getProp qs k := by
  induction ps with
  | nil => simp [getProp]
  | cons kv ps ih =>
    rw [List.cons_append, getProp_cons, getProp_cons]
    rcases h : (kv.1 == k) with _ | _
    · simp only [Bool.false_eq_true, if_false, ih]
    · simp

theorem getProp_filter_not_excluded (ps : Props) (excl : List String)
    (k : String) (hk : excl.contains k = false) :
    getProp (ps.filter (fun kv => !(excl.contains kv.1))) k = getProp ps k := by
  induction ps with
  | nil => rfl
  | cons kv ps ih =>
    rcases hexcl : excl.contains kv.1 with _ | _
    · rw [List.filter_cons, hexcl]
      rw [show (!(false : Bool)) = true from rfl]
      rw [if_pos rfl]
      rw [getProp_cons, getProp_cons, ih]
    · have hkv : (kv.1 == k) = false := by
        rcases hbeq : (kv.1 == k) with _ | _
        · rfl
        · exfalso
          have heq : kv.1 = k := eq_of_beq hbeq
          rw [heq] at hexcl
          rw [hexcl] at hk
          exact absurd hk (by decide)
      rw [List.filter_cons, hexcl]
      rw [show (!(true : Bool)) = false from rfl]
      rw [if_neg (by decide : ¬ ((false : Bool) = true))]
      rw [ih, getProp_cons, hkv]
      simp

theorem minStep_none (t : ℚ × ℚ × ℚ) : minStep none t = some t := rfl

theorem minStep_some (b t : ℚ × ℚ × ℚ) :
    minStep (some b) t = if t.1 < b.1 then some t else some b := rfl

theorem maxStep_none (t : ℚ × ℚ × ℚ) : maxStep none t = some t := rfl

theorem maxStep_some (b t : ℚ × ℚ × ℚ) :
    maxStep (some b) t = if b.1 < t.1 then some t else some b := rfl

theorem maxElvStep_none (s : Segment) : maxElvStep none s = some s := rfl

theorem maxElvStep_some (b s : Segment) :
    maxElvStep (some b) s =
      if b.elvRange < s.elvRange then some s else some b := rfl

theorem reduceMin_spec (l : List (ℚ × ℚ × ℚ)) (m : ℚ × ℚ × ℚ)
    (h : reduceMin l = some m) : m ∈ l ∧ ∀ t ∈ l, m.1 ≤ t.1 := by
  suffices haux : ∀ (l : List (ℚ × ℚ × ℚ)) (b : ℚ × ℚ × ℚ),
      ∃ m0, l.foldl minStep (some b) = some m0 ∧
        (m0 = b ∨ m0 ∈ l) ∧ m0.1 ≤ b.1 ∧ ∀ t ∈ l, m0.1 ≤ t.1 by
    rcases l with _ | ⟨x, l⟩
    · exact absurd h (by simp [reduceMin])
    · unfold reduceMin at h
      rw [List.foldl_cons, minStep_none] at h
      rcases haux l x with ⟨m0, hm0, hmem, hle, hall⟩
      rw [hm0] at h
      rcases Option.some_inj.mp h with rfl
      constructor
      · rcases hmem with rfl | hmem
        · exact List.mem_cons_self _ _
        · exact List.mem_cons_of_mem _ hmem
      · intro t ht
        rcases List.mem_cons.mp ht with rfl | ht
        · exact hle
        · exact hall t ht
  intro l
  induction l with
  | nil => exact fun b => ⟨b, rfl, Or.inl rfl, le_refl _, by simp⟩
  | cons x l ih =>
    intro b
    rw [List.foldl_cons, minStep_some]
    by_cases hx : x.1 < b.1
    · rw [if_pos hx]
      rcases ih x with ⟨m, hm, hmem, hle, hall⟩
      refine ⟨m, hm, ?_, ?_, ?_⟩
      · rcases hmem with rfl | hmem
        · exact Or.inr (List.mem_cons_self _ _)
        · exact Or.inr (List.mem_cons_of_mem _ hmem)
      · exact le_of_lt (lt_of_le_of_lt hle hx)
      · intro t ht
        rcases List.mem_cons.mp ht with rfl | ht
        · exact hle
        · exact hall t ht
    · rw [if_neg hx]
      rcases ih b with ⟨m, hm, hmem, hle, hall⟩
      refine ⟨m, hm, ?_, hle, ?_⟩
      · rcases hmem with rfl | hmem
        · exact Or.inl rfl
        · exact Or.inr (List.mem_cons_of_mem _ hmem)
      · intro t ht
        rcases List.mem_cons.mp ht with rfl | ht
        · exact le_trans hle (not_lt.mp hx)
        · exact hall t ht

theorem reduceMax_spec (l : List (ℚ × ℚ × ℚ)) (m : ℚ × ℚ × ℚ)
    (h : reduceMax l = some m) : m ∈ l ∧ ∀ t ∈ l, t.1 ≤ m.1 := by
  suffices haux : ∀ (l : List (ℚ × ℚ × ℚ)) (b : ℚ × ℚ × ℚ),
      ∃ m0, l.foldl maxStep (some b) = some m0 ∧
        (m0 = b ∨ m0 ∈ l) ∧ b.1 ≤ m0.1 ∧ ∀ t ∈ l, t.1 ≤ m0.1 by
    rcases l with _ | ⟨x, l⟩
    · exact absurd h (by simp [reduceMax])
    · unfold reduceMax at h
      rw [List.foldl_cons, maxStep_none] at h
      rcases haux l x with ⟨m0, hm0, hmem, hle, hall⟩
      rw [hm0] at h
      rcases Option.some_inj.mp h with rfl
      constructor
      · rcases hmem with rfl | hmem
        · exact List.mem_cons_self _ _
        · exact List.mem_cons_of_mem _ hmem
      · intro t ht
        rcases List.mem_cons.mp ht with rfl | ht
        · exact hle
        · exact hall t ht
  intro l
  induction l with
  | nil => exact fun b => ⟨b, rfl, Or.inl rfl, le_refl _, by simp⟩
  | cons x l ih =>
    intro b
    rw [List.foldl_cons, maxStep_some]
    by_cases hx : b.1 < x.1
    · rw [if_pos hx]
      rcases ih x with ⟨m, hm, hmem, hle, hall⟩
      refine ⟨m, hm, ?_, ?_, ?_⟩
      · rcases hmem with rfl | hmem
        · exact Or.inr (List.mem_cons_self _ _)
        · exact Or.inr (List.mem_cons_of_mem _ hmem)
      · exact le_of_lt (lt_of_lt_of_le hx hle)
      · intro t ht
        rcases List.mem_cons.mp ht with rfl | ht
        · exact hle
        · exact hall t ht
    · rw [if_neg hx]
      rcases ih b with ⟨m, hm, hmem, hle, hall⟩
      refine ⟨m, hm, ?_, hle, ?_⟩
      · rcases hmem with rfl | hmem
        · exact Or.inl rfl
        · exact Or.inr (List.mem_cons_of_mem _ hmem)
      · intro t ht
        rcases List.mem_cons.mp ht with rfl | ht
        · exact le_trans (not_lt.mp hx) hle
        · exact hall t ht

theorem pickMaxByElvRange_spec (l : List Segment) (m : Segment)
    (h : pickMaxByElvRange l = some m) :
    m ∈ l ∧ ∀ s ∈ l, s.elvRange ≤ m.elvRange := by
  suffices haux : ∀ (l : List Segment) (b : Segment),
      ∃ m0, l.foldl maxElvStep (some b) = some m0 ∧
        (m0 = b ∨ m0 ∈ l) ∧ b.elvRange ≤ m0.elvRange ∧
        ∀ s ∈ l, s.elvRange ≤ m0.elvRange by
    rcases l with _ | ⟨x, l⟩
    · exact absurd h (by simp [pickMaxByElvRange])
    · unfold pickMaxByElvRange at h
      rw [List.foldl_cons, maxElvStep_none] at h
      rcases haux l x with ⟨m0, hm0, hmem, hle, hall⟩
      rw [hm0] at h
      rcases Option.some_inj.mp h with rfl
      constructor
      · rcases hmem with rfl | hmem
        · exact List.mem_cons_self _ _
        · exact List.mem_cons_of_mem _ hmem
      · intro s hs
        rcases List.mem_cons.mp hs with rfl | hs
        · exact hle
        · exact hall s hs
  intro l
  induction l with
  | nil => exact fun b => ⟨b, rfl, Or.inl rfl, le_refl _, by simp⟩
  | cons x l ih =>
    intro b
    rw [List.foldl_cons, maxElvStep_some]
    by_cases hx : b.elvRange < x.elvRange
    · rw [if_pos hx]
      rcases ih x with ⟨m, hm, hmem, hle, hall⟩
      refine ⟨m, hm, ?_, ?_, ?_⟩
      · rcases hmem with rfl | hmem
        · exact Or.inr (List.mem_cons_self _ _)
        · exact Or.inr (List.mem_cons_of_mem _ hmem)
      · exact le_of_lt (lt_of_lt_of_le hx hle)
      · intro s hs
        rcases List.mem_cons.mp hs with rfl | hs
        · exact hle
        · exact hall s hs
    · rw [if_neg hx]
      rcases ih b with ⟨m, hm, hmem, hle, hall⟩
      refine ⟨m, hm, ?_, hle, ?_⟩
      · rcases hmem with rfl | hmem
        · exact Or.inl rfl
        · exact Or.inr (List.mem_cons_of_mem _ hmem)
      · intro s hs
        rcases List.mem_cons.mp hs with rfl | hs
        · exact le_trans (not_lt.mp hx) hle
        · exact hall s hs

theorem pickMaxByElvRange_isSome (l : List Segment) (hl : l ≠ []) :
    ∃ m, pickMaxByElvRange l = some m := by
  rcases l with _ | ⟨x, l⟩
  · exact absurd rfl hl
  · unfold pickMaxByElvRange
    rw [List.foldl_cons, maxElvStep_none]
    clear hl
    induction l generalizing x with
    | nil => exact ⟨x, rfl⟩
    | cons y l ih =>
      rw [List.foldl_cons, maxElvStep_some]
      by_cases hxy : x.elvRange < y.elvRange
      · rw [if_pos hxy]
        exact ih y
      · rw [if_neg hxy]
        exact ih x

theorem head?_filter_spec {α : Type} (p : α → Bool) (l : List α) (x : α)
    (h : (l.filter p).head? = some x) : x ∈ l ∧ p x = true := by
  have hx : x ∈ l.filter p :=
    List.mem_of_mem_head? (Option.mem_def.mpr h)
  exact ⟨(List.mem_filter.mp hx).1, (List.mem_filter.mp hx).2⟩

theorem head?_filter_isSome {α : Type} (p : α → Bool) (l : List α) (x : α)
    (hx : x ∈ l) (hp : p x = true) : ∃ y, (l.filter p).head? = some y := by
  have hmem : x ∈ l.filter p := List.mem_filter.mpr ⟨hx, hp⟩
  rcases hf : l.filter p with _ | ⟨y, t⟩
  · rw [hf] at hmem
    exact absurd hmem (by simp)
  · exact ⟨y, rfl⟩

theorem randomColumn_mem (rnd : ℕ → ℚ) (i : ℕ) (l : List CLFtr) (cl : CLFtr)
    (h : cl ∈ randomColumn rnd i l) :
    ∃ cl0 ∈ l, ∃ j : ℕ,
      cl = CLFtr.mk cl0.geometry (cl0.props ++ [("CL_ID", rnd j)]) := by
  induction l generalizing i with
  | nil => exact absurd h (by simp [randomColumn])
  | cons f fs ih =>
    unfold randomColumn at h
    rcases List.mem_cons.mp h with rfl | h
    · exact ⟨f, List.mem_cons_self _ _, i, rfl⟩
    · rcases ih (i + 1) h with ⟨cl0, hcl0, j, hj⟩
      exact ⟨cl0, List.mem_cons_of_mem _ hcl0, j, hj⟩

theorem getProp_cons_ne (k0 : String) (v0 : ℚ) (ps : Props) (k : String)
    (h : (k0 == k) = false) : getProp ((k0, v0) :: ps) k = getProp ps k := by
  rw [getProp_cons, h]
  simp

theorem getProp_cons_self (k0 : String) (v0 : ℚ) (ps : Props) :
    getProp ((k0, v0) :: ps) k0 = some v0 := by
  rw [getProp_cons, beq_self_eq_true]
  simp

theorem reducedBuffer_getProp (r : ReducedBuffer)
    (hf : ∀ k ∈ reservedKeys, getProp r.buffer.ctd.props k = none) :
    getProp r.props "CF_elv" = Option.map (fun t => t.1) r.CF ∧
    getProp r.props "CF_lat" = Option.map (fun t => t.2.1) r.CF ∧
    getProp r.props "CF_long" = Option.map (fun t => t.2.2) r.CF ∧
    getProp r.props "nonF_elv" = Option.map (fun t => t.1) r.nonF ∧
    getProp r.props "nonF_lat" = Option.map (fun t => t.2.1) r.nonF ∧
    getProp r.props "nonF_long" = Option.map (fun t => t.2.2) r.nonF := by
  have hCFe := hf "CF_elv" (by decide)
  have hCFla := hf "CF_lat" (by decide)
  have hCFlo := hf "CF_long" (by decide)
  have hnFe := hf "nonF_elv" (by decide)
  have hnFla := hf "nonF_lat" (by decide)
  have hnFlo := hf "nonF_long" (by decide)
  unfold ReducedBuffer.props
  rcases r.CF with _ | ⟨e, la, lo⟩ <;> rcases r.nonF with _ | ⟨e2, la2, lo2⟩ <;>
    simp only [List.cons_append, List.nil_append] <;>
    refine ⟨?_, ?_, ?_, ?_, ?_, ?_⟩ <;>
    simp +decide [getProp_cons, hCFe, hCFla, hCFlo, hnFe, hnFla, hnFlo]

theorem constructTransectCLs_mem (lineLength : (ℚ × ℚ) → (ℚ × ℚ) → ℚ)
    (rnd : ℕ → ℚ) (basins : List Basin) (ctds : List PxCtdFtr)
    (img : List RasterPixel) (cl : CLFtr)
    (h : cl ∈ constructTransectCLs_byBasin lineLength rnd basins ctds img) :
    ∃ basin ∈ basins,
      ∃ r ∈ (reduceRegions_combined img
          (pxCtd_Buffers (ctds.filter basin.memb))).filter selectBuffer,
        ∃ cl0, mkCL lineLength r = some cl0 ∧
          ∃ j : ℕ, cl = CLFtr.mk cl0.geometry
            (cl0.props ++ [("CL_ID", rnd j)]) := by
  unfold constructTransectCLs_byBasin at h
  obtain ⟨cl0, hcl0, j, rfl⟩ := randomColumn_mem _ _ _ _ h
  obtain ⟨sub, hsub, hcl0mem⟩ := List.mem_flatten.mp hcl0
  obtain ⟨basin, hbasin, rfl⟩ := List.mem_map.mp hsub
  simp only [transectCLs_perBasin] at hcl0mem
  obtain ⟨r, hr, hmk⟩ := List.mem_filterMap.mp hcl0mem
  exact ⟨basin, hbasin, r, hr, cl0, hmk, j, rfl⟩

theorem reduceRegions_mem (img : List RasterPixel) (bufs : List BufferFtr)
    (r : ReducedBuffer) (h : r ∈ reduceRegions_combined img bufs) :
    r.buffer ∈ bufs ∧
    r.CF = reduceMin ((img.filter (inBuffer r.buffer)).filterMap
      create_CF_elvCoords) ∧
    r.nonF = reduceMax ((img.filter (inBuffer r.buffer)).filterMap
      create_nonF_elvCoords) := by
  unfold reduceRegions_combined at h
  obtain ⟨b, hb, rfl⟩ := List.mem_map.mp h
  exact ⟨hb, rfl, rfl⟩

theorem pxCtd_Buffers_mem (ctds : List PxCtdFtr) (b : BufferFtr)
    (h : b ∈ pxCtd_Buffers ctds) :
    b.ctd ∈ ctds ∧
    getProp b.ctd.props "medialAxis_sqDist_inPixels" = some b.sqDist := by
  unfold pxCtd_Buffers at h
  obtain ⟨c, hc, hmap⟩ := List.mem_filterMap.mp h
  rcases hsq : getProp c.props "medialAxis_sqDist_inPixels" with _ | sq
  · rw [hsq] at hmap
    exact absurd hmap (by simp)
  · rw [hsq] at hmap
    rcases Option.some_inj.mp hmap with rfl
    exact ⟨hc, hsq⟩

end Helpers

open ForestMask SegmentDiffSign

/-- C5: the five-year closed-forest mask computed as the min() of the five
annual 0/1 closed-forest images equals the pointwise logical AND of the five
annual predicates: its value is 1 precisely when the land-cover class lies in
[111, 116] in every year from 2015 to 2019, and 0 otherwise; the local forest
elevation keeps the elevation exactly at pixels where this conjunction and
the niche-edge mask both hold. -/
theorem closedForestMask_is_fiveYear_conjunction
    (readAnnualLC : ℕ → ℤ) (ALOSelv : ℚ) (fund_Niche_Edge : Bool) :
    (extractClosedForests_inAllYears readAnnualLC =
      some (if closedForestAllYears readAnnualLC then 1 else 0)) ∧
    (local_Forest_Elv ALOSelv fund_Niche_Edge readAnnualLC = some ALOSelv ↔
      fund_Niche_Edge = true ∧ closedForestAllYears readAnnualLC) ∧
    (local_Forest_Elv ALOSelv fund_Niche_Edge readAnnualLC = some ALOSelv ∨
      local_Forest_Elv ALOSelv fund_Niche_Edge readAnnualLC = none) := by
  have hmask : extractClosedForests_inAllYears readAnnualLC =
      some (if closedForestAllYears readAnnualLC then 1 else 0) := by
    unfold extractClosedForests_inAllYears landCover15to19 icMin
      extractAnnualClosedForests closedForestAllYears lcYears
    simp only [List.map, List.foldl, List.mem_cons, List.not_mem_nil]
    split_ifs <;> simp_all
  refine ⟨hmask, ?_, ?_⟩
  · unfold local_Forest_Elv
    rw [hmask]
    split_ifs with hconj
    · simp [hconj]
    · simp [hconj]
  · unfold local_Forest_Elv
    rw [hmask]
    split_ifs <;> simp

/-- C6: for a joined segment pair whose two average elevations differ, the
sign-corrected vegetation difference (value of segment 1 minus value of
segment 2, multiplied by the sign of the elevation difference) equals the
value at the higher-elevation segment minus the value at the
lower-elevation segment. -/
theorem vegeDiff_is_upper_minus_lower (v1 v2 e1 e2 : ℚ) (h : e1 ≠ e2) :
    vege_diff v1 v2 e1 e2 =
      (if e2 < e1 then v1 else v2) - (if e2 < e1 then v2 else v1) := by
  unfold vege_diff Diff_Sign Elv_Diff
  rcases lt_or_gt_of_ne h with hlt | hgt
  · have hneg : e1 - e2 < 0 := by linarith
    rw [abs_of_neg hneg]
    rw [div_neg, div_self (ne_of_lt hneg)]
    have hnot : ¬ e2 < e1 := not_lt.mpr (le_of_lt hlt)
    simp only [if_neg hnot]
    ring
  · have hpos : 0 < e1 - e2 := by linarith
    rw [abs_of_pos hpos]
    rw [div_self (ne_of_gt hpos)]
    simp [hgt]

/-- Witness for C6 at a concrete segment pair: elevations 1200 and 900,
values 3 and 7. -/
theorem vegeDiff_is_upper_minus_lower_witness :
    vege_diff 3 7 1200 900 = 3 - 7 := by
  rw [vegeDiff_is_upper_minus_lower 3 7 1200 900 (by norm_num)]
  norm_num

section SegmentJoiningClaims

open SegmentJoining

/-- Counterexample to C7 as stated: a merged segment pair whose two
vegetation values are both present and whose segment 1 elevation is missing
(so the pair has neither a missing vegetation value nor a zero elevation
difference) is nevertheless removed by the first drop_na call. -/
theorem dropNA_removes_row_without_missing_vegetation :
    mergeSegments
        [SegRow.mk 1 0 1 none (some 5), SegRow.mk 1 0 2 (some 10) (some 3)] =
      [JoinedRow.mk 1 0 none (some 5) (some 10) (some 3)] ∧
    drop_na_joined
        (mergeSegments
          [SegRow.mk 1 0 1 none (some 5), SegRow.mk 1 0 2 (some 10) (some 3)]) =
      [] ∧
    (JoinedRow.mk 1 0 none (some 5) (some 10) (some 3)).Val_1 = some 5 ∧
    (JoinedRow.mk 1 0 none (some 5) (some 10) (some 3)).Val_2 = some 3 ∧
    (JoinedRow.mk 1 0 none (some 5) (some 10) (some 3)).Elv_1 = none := by
  refine ⟨?_, ?_, rfl, rfl, rfl⟩ <;> decide

/-- C7 (amended): the two drop_na calls silently filter rows, raising no
error: the first keeps exactly the merged rows in which all four joined
columns (the two vegetation values and the two average elevations) are
present — so every row with a missing vegetation value is removed there,
along with rows missing an average elevation — and, among the surviving
complete rows, the second keeps exactly those whose segment pair has a
nonzero elevation difference, the zero-difference pairs having produced an
undefined (0/0) sign-corrected value. -/
theorem dropNA_policy (rows : List SegRow) :
    (∀ r : JoinedRow, r ∈ drop_na_joined (mergeSegments rows) ↔
      r ∈ mergeSegments rows ∧ r.complete = true) ∧
    (∀ r : JoinedRow, r.Val_1 = none ∨ r.Val_2 = none →
      r ∉ drop_na_joined (mergeSegments rows)) ∧
    (∀ r : JoinedRow, ∀ e1 v1 e2 v2 : ℚ,
      r.Elv_1 = some e1 → r.Val_1 = some v1 → r.Elv_2 = some e2 →
      r.Val_2 = some v2 →
      ((mutateDiff r).Val_diff = none ↔ e1 = e2)) ∧
    (∀ d : DiffRow, d ∈ segmentDiffPipeline rows ↔
      d ∈ (drop_na_joined (mergeSegments rows)).map mutateDiff ∧
        d.Val_diff ≠ none) := by
  refine ⟨?_, ?_, ?_, ?_⟩
  · intro r
    simp [drop_na_joined, List.mem_filter]
  · intro r hr hmem
    simp only [drop_na_joined, List.mem_filter] at hmem
    rcases hmem with ⟨-, hc⟩
    unfold JoinedRow.complete at hc
    rcases hr with h1 | h2
    · rw [h1] at hc
      simp at hc
    · rw [h2] at hc
      simp at hc
  · intro r e1 v1 e2 v2 he1 hv1 he2 hv2
    unfold mutateDiff naSub naDiffSign naMul
    rw [he1, hv1, he2, hv2]
    by_cases hz : e1 - e2 = 0
    · have : e1 = e2 := by linarith
      simp [hz, this]
    · have : ¬ e1 = e2 := fun h => hz (by rw [h]; ring)
      simp [hz, this]
  · intro d
    simp [segmentDiffPipeline, drop_na_diff, List.mem_filter,
      Option.isSome_iff_ne_none]

/-- Witness for C7 (amended) at a concrete two-row table: one complete
pair with distinct elevations survives the whole pipeline. -/
theorem dropNA_policy_witness :
    (JoinedRow.mk 1 0 (some 10) (some 5) (some 8) (some 3)) ∈
      drop_na_joined
        (mergeSegments
          [SegRow.mk 1 0 1 (some 10) (some 5),
           SegRow.mk 1 0 2 (some 8) (some 3)]) ∧
    ((mutateDiff (JoinedRow.mk 1 0 (some 10) (some 5) (some 8) (some 3))).Val_diff
      = none ↔ (10 : ℚ) = 8) := by
  constructor
  · exact ((dropNA_policy
      [SegRow.mk 1 0 1 (some 10) (some 5),
       SegRow.mk 1 0 2 (some 8) (some 3)]).1
      (JoinedRow.mk 1 0 (some 10) (some 5) (some 8) (some 3))).2
      (by constructor <;> decide)
  · exact (dropNA_policy []).2.2.1
      (JoinedRow.mk 1 0 (some 10) (some 5) (some 8) (some 3))
      10 5 8 3 rfl rfl rfl rfl

end SegmentJoiningClaims

section CheckboxClaims

theorem checkboxStep_preserves (s : VisApp.CheckboxState)
    (h : (s.transectCheckbox && s.transectDiff) = false)
    (e : VisApp.CheckboxEvent) :
    ((VisApp.checkboxStep s e).transectCheckbox &&
      (VisApp.checkboxStep s e).transectDiff) = false := by
  rcases e with b | b | b | b | b <;> rcases b with _ | _ <;>
    simp_all [VisApp.checkboxStep, VisApp.updateTransectDiffCheckbox,
      VisApp.updateRawTransectCheckbox]

/-- C10: the raw-transect checkbox and the transect-level difference
checkbox are never both true: setting either to true forces the other to
false through its change handler, and the exclusion holds after
initialization (the empty event list) and after every sequence of checkbox
changes. -/
theorem rawTransect_transectDiff_mutually_exclusive :
    (∀ evs : List VisApp.CheckboxEvent,
      ((VisApp.runCheckboxes evs).transectCheckbox &&
        (VisApp.runCheckboxes evs).transectDiff) = false) ∧
    (∀ s : VisApp.CheckboxState,
      (VisApp.checkboxStep s
        (VisApp.CheckboxEvent.setRawTransect true)).transectDiff = false) ∧
    (∀ s : VisApp.CheckboxState,
      (VisApp.checkboxStep s
        (VisApp.CheckboxEvent.setTransectDiff true)).transectCheckbox
        = false) := by
  refine ⟨?_, ?_, ?_⟩
  · have hfold : ∀ (evs : List VisApp.CheckboxEvent) (s : VisApp.CheckboxState),
        (s.transectCheckbox && s.transectDiff) = false →
        ((evs.foldl VisApp.checkboxStep s).transectCheckbox &&
          (evs.foldl VisApp.checkboxStep s).transectDiff) = false := by
      intro evs
      induction evs with
      | nil => exact fun s h => h
      | cons e evs ih =>
        intro s h
        rw [List.foldl_cons]
        exact ih _ (checkboxStep_preserves s h e)
    intro evs
    exact hfold evs _ (by decide)
  · intro s
    simp [VisApp.checkboxStep, VisApp.updateTransectDiffCheckbox]
  · intro s
    simp [VisApp.checkboxStep, VisApp.updateRawTransectCheckbox]

end CheckboxClaims

section LengthWindowClaims

/-- C3: every transect in the final output of Step 4.1 comes from a
selected steepest centerline whose CL_length lies in the inclusive window
[300 m, 3000 m], and is that centerline buffered by 45 m. -/
theorem steepestTransect_length_in_window
    (intersects : SteepestSelection.GroupedBuffer →
      SteepestSelection.Segment → Bool)
    (cls : List SteepestSelection.Centerline)
    (segs : List SteepestSelection.Segment)
    (gbs : List SteepestSelection.GroupedBuffer) :
    ∀ t ∈ SteepestSelection.steepestTransects intersects cls segs gbs,
      300 ≤ t.centerline.CL_length ∧ t.centerline.CL_length ≤ 3000 ∧
      t.bufferDistance_Num = 45 ∧
      t.centerline ∈
        SteepestSelection.identifySteepestCenterlines intersects cls segs gbs := by
  intro t ht
  unfold SteepestSelection.steepestTransects at ht
  rcases List.mem_map.mp ht with ⟨c, hc, rfl⟩
  unfold SteepestSelection.length_Filter at hc
  rcases List.mem_filter.mp hc with ⟨hmem, hcond⟩
  rcases (Bool.and_eq_true _ _).mp hcond with ⟨hlo, hhi⟩
  exact ⟨of_decide_eq_true hlo, of_decide_eq_true hhi, rfl, hmem⟩

/-- Witness for C3: the one-basin, one-segment scene yields the 500-m
centerline buffered by 45 m, and the window bounds hold for it. -/
theorem steepestTransect_length_in_window_witness :
    SteepestSelection.Transect.mk Concrete.sCl 45 ∈
      SteepestSelection.steepestTransects Concrete.sIntersects
        [Concrete.sCl] [Concrete.sSeg] [Concrete.sGb] ∧
    (300 ≤ (SteepestSelection.Transect.mk Concrete.sCl 45).centerline.CL_length ∧
      (SteepestSelection.Transect.mk Concrete.sCl 45).centerline.CL_length ≤ 3000 ∧
      (SteepestSelection.Transect.mk Concrete.sCl 45).bufferDistance_Num = 45 ∧
      (SteepestSelection.Transect.mk Concrete.sCl 45).centerline ∈
        SteepestSelection.identifySteepestCenterlines Concrete.sIntersects
          [Concrete.sCl] [Concrete.sSeg] [Concrete.sGb]) :=
  ⟨by decide,
   steepestTransect_length_in_window Concrete.sIntersects [Concrete.sCl]
     [Concrete.sSeg] [Concrete.sGb]
     (SteepestSelection.Transect.mk Concrete.sCl 45) (by decide)⟩

end LengthWindowClaims

section InspectorClaims

/-- Counterexample to C9 as stated: with two transects inside the 90-m
buffer of the click at (1, 0), the handler inspects the first transect of
the collection (80 m away) although the nearest transect is the second one
(10 m away). -/
theorem inspectTransect_not_nearest :
    (VisApp.inspectTransect [Concrete.tFar, Concrete.tNear] VisApp.diffTypeCH
      (some (1, 0)) Concrete.st0).ID = some Concrete.tFar.ET_ID ∧
    VisApp.nearestTransect_spec (1, 0) [Concrete.tFar, Concrete.tNear] =
      some Concrete.tNear ∧
    Concrete.tFar ≠ Concrete.tNear ∧
    VisApp.intersects90 (1, 0) Concrete.tFar = true ∧
    VisApp.intersects90 (1, 0) Concrete.tNear = true := by
  have hfar : VisApp.intersects90 (1, 0) Concrete.tFar = true := by
    simp only [VisApp.intersects90, VisApp.minSqDistToGeom, VisApp.sqDistPts,
      Concrete.tFar, List.map, List.foldl]
    norm_num
  have hnear : VisApp.intersects90 (1, 0) Concrete.tNear = true := by
    simp only [VisApp.intersects90, VisApp.minSqDistToGeom, VisApp.sqDistPts,
      Concrete.tNear, List.map, List.foldl]
    norm_num
  have hfilter :
      List.filter (VisApp.intersects90 (1, 0))
        [Concrete.tFar, Concrete.tNear] =
        [Concrete.tFar, Concrete.tNear] := by
    rw [List.filter_cons, hfar]
    rw [List.filter_cons, hnear]
    simp
  refine ⟨?_, ?_, by decide, hfar, hnear⟩
  · simp only [VisApp.inspectTransect]
    norm_num
    rw [hfilter]
  · simp only [VisApp.nearestTransect_spec, VisApp.minSqDistToGeom,
      VisApp.sqDistPts, Concrete.tFar, Concrete.tNear, List.map, List.foldl]
    norm_num

/-- C9 (amended): the click handler leaves the inspector unchanged when the
coordinates are absent or no transect lies within 90 m of the click;
otherwise it inspects the first transect of the collection whose geometry
lies within 90 m of the clicked point (not necessarily the nearest one) and
draws the chart whose x-values are that transect's lower and upper endpoint
elevations and whose y-values are its lower and upper segment averages of
the currently selected vegetation metric. -/
theorem inspectTransect_click_behavior (ATETs : List VisApp.Transect)
    (dt : VisApp.DiffType) (st : VisApp.InspectorState) :
    (VisApp.inspectTransect ATETs dt none st = st) ∧
    (∀ lon lat : ℚ, lon ≠ 0 →
      ATETs.filter (VisApp.intersects90 (lon, lat)) = [] →
      VisApp.inspectTransect ATETs dt (some (lon, lat)) st = st) ∧
    (∀ lon lat : ℚ, ∀ t : VisApp.Transect, ∀ rest : List VisApp.Transect,
      lon ≠ 0 →
      ATETs.filter (VisApp.intersects90 (lon, lat)) = t :: rest →
      t ∈ ATETs ∧ VisApp.intersects90 (lon, lat) t = true ∧
      (VisApp.inspectTransect ATETs dt (some (lon, lat)) st).ID
        = some t.ET_ID ∧
      (VisApp.inspectTransect ATETs dt (some (lon, lat)) st).chart =
        some (VisApp.Chart.mk [some t.LEnd_Elv, some t.UEnd_Elv]
          [t.get ("L_" ++ dt.suffix), t.get ("U_" ++ dt.suffix)]
          dt.color dt.varName) ∧
      (dt = VisApp.diffTypeCH →
        (VisApp.inspectTransect ATETs dt (some (lon, lat)) st).chart =
          some (VisApp.Chart.mk [some t.LEnd_Elv, some t.UEnd_Elv]
            [some t.L_CanopyHt, some t.U_CanopyHt] dt.color dt.varName)) ∧
      (dt = VisApp.diffTypeNDVI →
        (VisApp.inspectTransect ATETs dt (some (lon, lat)) st).chart =
          some (VisApp.Chart.mk [some t.LEnd_Elv, some t.UEnd_Elv]
            [some t.L_NDVI, some t.U_NDVI] dt.color dt.varName))) := by
  refine ⟨rfl, ?_, ?_⟩
  · intro lon lat hlon hfilter
    simp [VisApp.inspectTransect, hlon, hfilter]
  · intro lon lat t rest hlon hfilter
    have hmemf : t ∈ ATETs.filter (VisApp.intersects90 (lon, lat)) := by
      rw [hfilter]
      exact List.mem_cons_self _ _
    refine ⟨(List.mem_filter.mp hmemf).1, (List.mem_filter.mp hmemf).2,
      ?_, ?_, ?_, ?_⟩
    · simp [VisApp.inspectTransect, hlon, hfilter]
    · simp [VisApp.inspectTransect, hlon, hfilter, VisApp.Transect.get]
    · intro hdt
      subst hdt
      simp [VisApp.inspectTransect, hlon, hfilter, VisApp.Transect.get,
        VisApp.diffTypeCH]
    · intro hdt
      subst hdt
      simp [VisApp.inspectTransect, hlon, hfilter, VisApp.Transect.get,
        VisApp.diffTypeNDVI]

/-- Witness for C9 (amended) at the concrete scene: clicking at (1, 0)
with the single transect tNear inspects it. -/
theorem inspectTransect_click_behavior_witness :
    Concrete.tNear ∈ [Concrete.tNear] ∧
    (VisApp.inspectTransect [Concrete.tNear] VisApp.diffTypeCH (some (1, 0))
      Concrete.st0).ID = some Concrete.tNear.ET_ID :=
  ⟨List.mem_cons_self _ _,
   ((inspectTransect_click_behavior [Concrete.tNear] VisApp.diffTypeCH
      Concrete.st0).2.2 1 0 Concrete.tNear [] (by norm_num)
      (by
        have hnear : VisApp.intersects90 (1, 0) Concrete.tNear = true := by
          simp only [VisApp.intersects90, VisApp.minSqDistToGeom,
            VisApp.sqDistPts, Concrete.tNear, List.map, List.foldl]
          norm_num
        rw [List.filter_cons, hnear]
        simp)).2.2.1⟩

end InspectorClaims

section SteepestClaims

open SteepestSelection

/-- C2: for every grouped centerline-segment buffer of a basin that some
segment of the basin intersects, the save-first join ordered by elvRange
descending attaches an intersecting segment of maximal elevational range,
and the selection keeps exactly one centerline for that group: the one
sharing the attached segment's CL_ID (unique when CL_IDs are unique), and
that centerline appears in the flattened output. -/
theorem steepest_one_centerline_per_group
    (intersects : GroupedBuffer → Segment → Bool)
    (cls : List Centerline) (segs : List Segment)
    (gbs : List GroupedBuffer) (gb : GroupedBuffer) (hgb : gb ∈ gbs)
    (hmatch : ∀ s ∈ segs, ∃ c ∈ cls,
      c.HYBAS_ID = s.HYBAS_ID ∧ c.CL_ID = s.CL_ID)
    (hunique : ∀ c1 ∈ cls, ∀ c2 ∈ cls, c1.CL_ID = c2.CL_ID → c1 = c2)
    (hexists : ∃ s ∈ segs,
      s.HYBAS_ID = gb.HYBAS_ID ∧ intersects gb s = true) :
    ∃ s cl,
      s ∈ segs ∧ s.HYBAS_ID = gb.HYBAS_ID ∧ intersects gb s = true ∧
      (∀ s2 ∈ segs, s2.HYBAS_ID = gb.HYBAS_ID → intersects gb s2 = true →
        s2.elvRange ≤ s.elvRange) ∧
      steepestForGroup intersects
        (cls.filter (fun c => c.HYBAS_ID == gb.HYBAS_ID))
        (segs.filter (fun s => s.HYBAS_ID == gb.HYBAS_ID)) gb = some cl ∧
      cl.CL_ID = s.CL_ID ∧
      (∀ c ∈ cls, c.CL_ID = s.CL_ID → c = cl) ∧
      cl ∈ identifySteepestCenterlines intersects cls segs gbs := by
  obtain ⟨s0, hs0mem, hs0b, hs0i⟩ := hexists
  have hs0filtered :
      s0 ∈ (segs.filter (fun s => s.HYBAS_ID == gb.HYBAS_ID)).filter
        (intersects gb) :=
    List.mem_filter.mpr
      ⟨List.mem_filter.mpr ⟨hs0mem, beq_iff_eq.mpr hs0b⟩, hs0i⟩
  obtain ⟨s, hs⟩ :=
    pickMaxByElvRange_isSome _ (List.ne_nil_of_mem hs0filtered)
  obtain ⟨hsmem, hsmax⟩ := pickMaxByElvRange_spec _ _ hs
  have hsseg : s ∈ segs := (List.mem_filter.mp (List.mem_filter.mp hsmem).1).1
  have hsb : s.HYBAS_ID = gb.HYBAS_ID :=
    beq_iff_eq.mp (List.mem_filter.mp (List.mem_filter.mp hsmem).1).2
  have hsi : intersects gb s = true := (List.mem_filter.mp hsmem).2
  obtain ⟨c0, hc0mem, hc0b, hc0id⟩ := hmatch s hsseg
  have hc0filtered : c0 ∈ cls.filter (fun c => c.HYBAS_ID == gb.HYBAS_ID) :=
    List.mem_filter.mpr ⟨hc0mem, beq_iff_eq.mpr (hc0b.trans hsb)⟩
  obtain ⟨cl, hcl⟩ := head?_filter_isSome (fun c => c.CL_ID == s.CL_ID) _ c0
    hc0filtered (beq_iff_eq.mpr hc0id)
  obtain ⟨hclmem_b, hclid_beq⟩ := head?_filter_spec _ _ _ hcl
  have hclmem : cl ∈ cls := (List.mem_filter.mp hclmem_b).1
  have hclid : cl.CL_ID = s.CL_ID := beq_iff_eq.mp hclid_beq
  have hsteep : steepestForGroup intersects
      (cls.filter (fun c => c.HYBAS_ID == gb.HYBAS_ID))
      (segs.filter (fun s => s.HYBAS_ID == gb.HYBAS_ID)) gb = some cl := by
    unfold steepestForGroup saveFirst_steepestSegment
    rw [hs]
    exact hcl
  refine ⟨s, cl, hsseg, hsb, hsi, ?_, hsteep, hclid, ?_, ?_⟩
  · intro s2 hs2mem hs2b hs2i
    exact hsmax s2 (List.mem_filter.mpr
      ⟨List.mem_filter.mpr ⟨hs2mem, beq_iff_eq.mpr hs2b⟩, hs2i⟩)
  · intro c hc hcid
    exact hunique c hc cl hclmem (hcid.trans hclid.symm)
  · unfold identifySteepestCenterlines
    refine List.mem_flatten.mpr ⟨_, List.mem_map.mpr
      ⟨gb.HYBAS_ID, List.mem_dedup.mpr
        (List.mem_map.mpr ⟨gb, hgb, rfl⟩), rfl⟩, ?_⟩
    exact List.mem_filterMap.mpr ⟨gb,
      List.mem_filter.mpr ⟨hgb, beq_iff_eq.mpr rfl⟩, hsteep⟩

/-- Witness for C2 at the one-basin scene: the single segment intersects
the single grouped buffer, and the matching 500-m centerline is kept. -/
theorem steepest_one_centerline_per_group_witness :
    ∃ s cl,
      s ∈ [Concrete.sSeg] ∧ s.HYBAS_ID = Concrete.sGb.HYBAS_ID ∧
      Concrete.sIntersects Concrete.sGb s = true ∧
      (∀ s2 ∈ [Concrete.sSeg], s2.HYBAS_ID = Concrete.sGb.HYBAS_ID →
        Concrete.sIntersects Concrete.sGb s2 = true →
        s2.elvRange ≤ s.elvRange) ∧
      steepestForGroup Concrete.sIntersects
        ([Concrete.sCl].filter
          (fun c => c.HYBAS_ID == Concrete.sGb.HYBAS_ID))
        ([Concrete.sSeg].filter
          (fun s => s.HYBAS_ID == Concrete.sGb.HYBAS_ID))
        Concrete.sGb = some cl ∧
      cl.CL_ID = s.CL_ID ∧
      (∀ c ∈ [Concrete.sCl], c.CL_ID = s.CL_ID → c = cl) ∧
      cl ∈ identifySteepestCenterlines Concrete.sIntersects
        [Concrete.sCl] [Concrete.sSeg] [Concrete.sGb] :=
  steepest_one_centerline_per_group Concrete.sIntersects [Concrete.sCl]
    [Concrete.sSeg] [Concrete.sGb] Concrete.sGb (by decide) (by decide)
    (by decide) (by decide)

end SteepestClaims

section CenterlineClaims

open CenterlineConstruction

/-- C1: every centerline constructed by the centerline-construction stage
carries a non-null maximum non-forested elevation strictly greater than its
non-null minimum closed-forest elevation (the buffers are filtered on
exactly this condition before any line is constructed), and its elvRange
attribute is their difference. -/
theorem transectCL_upper_endpoint_above_lower
    (lineLength : (ℚ × ℚ) → (ℚ × ℚ) → ℚ) (rnd : ℕ → ℚ)
    (basins : List Basin) (ctds : List PxCtdFtr) (img : List RasterPixel) :
    ∀ cl ∈ constructTransectCLs_byBasin lineLength rnd basins ctds img,
      ∃ nf cf : ℚ,
        getProp cl.props "nonF_elv" = some nf ∧
        getProp cl.props "CF_elv" = some cf ∧
        cf < nf ∧
        getProp cl.props "elvRange" = some (nf - cf) := by
  intro cl hcl
  obtain ⟨basin, hbasin, r, hr, cl0, hmk, j, rfl⟩ :=
    constructTransectCLs_mem lineLength rnd basins ctds img cl hcl
  have hsel : selectBuffer r = true := (List.mem_filter.mp hr).2
  unfold selectBuffer at hsel
  rcases hnf : getProp r.props "nonF_elv" with _ | nf
  · rw [hnf] at hsel
    simp at hsel
  rcases hcf : getProp r.props "CF_elv" with _ | cf
  · rw [hnf, hcf] at hsel
    simp at hsel
  rw [hnf, hcf] at hsel
  have hlt : cf < nf := by simpa using hsel
  unfold mkCL at hmk
  rcases hcflo : getProp r.props "CF_long" with _ | cflo
  · rw [hcflo] at hmk
    simp at hmk
  rcases hcfla : getProp r.props "CF_lat" with _ | cfla
  · rw [hcflo, hcfla] at hmk
    simp at hmk
  rcases hnflo : getProp r.props "nonF_long" with _ | nflo
  · rw [hcflo, hcfla, hnflo] at hmk
    simp at hmk
  rcases hnfla : getProp r.props "nonF_lat" with _ | nfla
  · rw [hcflo, hcfla, hnflo, hnfla] at hmk
    simp at hmk
  rw [hcflo, hcfla, hnflo, hnfla, hnf, hcf] at hmk
  rcases Option.some_inj.mp hmk with rfl
  refine ⟨nf, cf, ?_, ?_, hlt, ?_⟩
  · show getProp ((("CL_length", lineLength (cflo, cfla) (nflo, nfla)) ::
      ("elvRange", nf - cf) ::
      r.props.filter (fun kv => !(copyExclude.contains kv.1))) ++
      [("CL_ID", rnd j)]) "nonF_elv" = some nf
    rw [List.cons_append, List.cons_append]
    rw [getProp_cons,
      show (("CL_length" : String) == "nonF_elv") = false by decide,
      if_neg (by decide : ¬ ((false : Bool) = true))]
    rw [getProp_cons,
      show (("elvRange" : String) == "nonF_elv") = false by decide,
      if_neg (by decide : ¬ ((false : Bool) = true))]
    rw [getProp_append,
      getProp_filter_not_excluded _ _ _ (by decide), hnf]
  · show getProp ((("CL_length", lineLength (cflo, cfla) (nflo, nfla)) ::
      ("elvRange", nf - cf) ::
      r.props.filter (fun kv => !(copyExclude.contains kv.1))) ++
      [("CL_ID", rnd j)]) "CF_elv" = some cf
    rw [List.cons_append, List.cons_append]
    rw [getProp_cons,
      show (("CL_length" : String) == "CF_elv") = false by decide,
      if_neg (by decide : ¬ ((false : Bool) = true))]
    rw [getProp_cons,
      show (("elvRange" : String) == "CF_elv") = false by decide,
      if_neg (by decide : ¬ ((false : Bool) = true))]
    rw [getProp_append,
      getProp_filter_not_excluded _ _ _ (by decide), hcf]
  · show getProp ((("CL_length", lineLength (cflo, cfla) (nflo, nfla)) ::
      ("elvRange", nf - cf) ::
      r.props.filter (fun kv => !(copyExclude.contains kv.1))) ++
      [("CL_ID", rnd j)]) "elvRange" = some (nf - cf)
    rw [List.cons_append, List.cons_append]
    rw [getProp_cons,
      show (("CL_length" : String) == "elvRange") = false by decide,
      if_neg (by decide : ¬ ((false : Bool) = true))]
    rw [getProp_cons,
      show (("elvRange" : String) == "elvRange") = true by decide,
      if_pos rfl]

theorem wOut_eval : Concrete.wOut = [Concrete.wCL] := by
  norm_num [Concrete.wOut, Concrete.wCL, Concrete.wBasin, Concrete.wCtd,
    Concrete.wPxCF, Concrete.wPxNonF, Concrete.wLineLength, Concrete.wRnd,
    constructTransectCLs_byBasin, transectCLs_perBasin, pxCtd_Buffers,
    getProp, reduceRegions_combined, inBuffer, sqDistPts,
    create_CF_elvCoords, create_nonF_elvCoords, reduceMin, minStep,
    reduceMax, maxStep, ReducedBuffer.props, selectBuffer, mkCL,
    copyExclude, randomColumn, List.filter, List.filterMap, List.foldl,
    List.find?]
  decide

/-- Witness for C1: the one-basin scene produces exactly the centerline
wCL, whose nonF_elv (200) strictly exceeds its CF_elv (100). -/
theorem transectCL_upper_endpoint_above_lower_witness :
    Concrete.wCL ∈ Concrete.wOut ∧
    (∃ nf cf : ℚ,
      getProp Concrete.wCL.props "nonF_elv" = some nf ∧
      getProp Concrete.wCL.props "CF_elv" = some cf ∧
      cf < nf ∧
      getProp Concrete.wCL.props "elvRange" = some (nf - cf)) :=
  ⟨by rw [wOut_eval]; exact List.mem_cons_self _ _,
   transectCL_upper_endpoint_above_lower Concrete.wLineLength Concrete.wRnd
     [Concrete.wBasin] [Concrete.wCtd] [Concrete.wPxCF, Concrete.wPxNonF]
     Concrete.wCL
     (by
       have h0 : constructTransectCLs_byBasin Concrete.wLineLength
           Concrete.wRnd [Concrete.wBasin] [Concrete.wCtd]
           [Concrete.wPxCF, Concrete.wPxNonF] = Concrete.wOut := rfl
       rw [h0, wOut_eval]
       exact List.mem_cons_self _ _)⟩

/-- C8: every buffer the centerline stage creates around a processed
medial-axis centroid has radius sqrt(medialAxis_sqDist_inPixels) * 30
meters: the radius is nonnegative, its square is the squared distance in
pixels times 900 (30 m per pixel, squared), and a pixel passes the
buffer-containment test exactly when its distance to the centroid is at
most that radius. -/
theorem pxCtdBuffer_radius (ctds : List PxCtdFtr) (b : BufferFtr)
    (hb : b ∈ pxCtd_Buffers ctds) (hnn : 0 ≤ b.sqDist) :
    getProp b.ctd.props "medialAxis_sqDist_inPixels" = some b.sqDist ∧
    0 ≤ Real.sqrt (b.sqDist : ℝ) * 30 ∧
    (Real.sqrt (b.sqDist : ℝ) * 30) ^ 2 = (b.sqDist : ℝ) * 900 ∧
    (∀ p : RasterPixel, inBuffer b p = true ↔
      Real.sqrt ((sqDistPts (p.lon, p.lat) (b.ctd.lon, b.ctd.lat) : ℚ) : ℝ)
        ≤ Real.sqrt (b.sqDist : ℝ) * 30) := by
  have hnnR : (0 : ℝ) ≤ (b.sqDist : ℝ) := by exact_mod_cast hnn
  refine ⟨(pxCtd_Buffers_mem ctds b hb).2, ?_, ?_, ?_⟩
  · positivity
  · rw [mul_pow, Real.sq_sqrt hnnR]
    norm_num
  · intro p
    have key : Real.sqrt ((b.sqDist : ℝ) * 900) =
        Real.sqrt (b.sqDist : ℝ) * 30 := by
      rw [Real.sqrt_mul hnnR,
        show ((900 : ℝ)) = 30 ^ 2 from by norm_num,
        Real.sqrt_sq (by norm_num : (0 : ℝ) ≤ 30)]
    rw [← key]
    unfold inBuffer
    rw [decide_eq_true_eq,
      Real.sqrt_le_sqrt_iff (by positivity)]
    constructor
    · intro h
      exact_mod_cast h
    · intro h
      exact_mod_cast h

/-- Witness for C8 at the concrete centroid with squared pixel distance 4:
the buffer radius is sqrt(4) * 30 = 60 m. -/
theorem pxCtdBuffer_radius_witness :
    getProp (CenterlineConstruction.BufferFtr.mk Concrete.wCtd 4).ctd.props
      "medialAxis_sqDist_inPixels" =
      some (CenterlineConstruction.BufferFtr.mk Concrete.wCtd 4).sqDist ∧
    0 ≤ Real.sqrt
      (((CenterlineConstruction.BufferFtr.mk Concrete.wCtd 4).sqDist : ℚ) : ℝ)
      * 30 ∧
    (Real.sqrt
      (((CenterlineConstruction.BufferFtr.mk Concrete.wCtd 4).sqDist : ℚ) : ℝ)
      * 30) ^ 2 =
      (((CenterlineConstruction.BufferFtr.mk Concrete.wCtd 4).sqDist : ℚ) : ℝ)
        * 900 ∧
    (∀ p : RasterPixel,
      inBuffer (CenterlineConstruction.BufferFtr.mk Concrete.wCtd 4) p = true ↔
      Real.sqrt ((sqDistPts (p.lon, p.lat)
        ((CenterlineConstruction.BufferFtr.mk Concrete.wCtd 4).ctd.lon,
         (CenterlineConstruction.BufferFtr.mk Concrete.wCtd 4).ctd.lat) : ℚ) : ℝ)
        ≤ Real.sqrt
          (((CenterlineConstruction.BufferFtr.mk Concrete.wCtd 4).sqDist : ℚ) : ℝ)
          * 30) :=
  pxCtdBuffer_radius [Concrete.wCtd]
    (CenterlineConstruction.BufferFtr.mk Concrete.wCtd 4)
    (by
      unfold pxCtd_Buffers
      simp [Concrete.wCtd, getProp, List.find?])
    (by norm_num)

/-- Counterexample to C4 as stated: the centerline constructed in the
one-basin scene carries nine properties (the two new scalar attributes,
the six copied reducer outputs, and the CL_ID), not exactly two. -/
theorem centerline_more_than_two_attributes :
    Concrete.wOut = [Concrete.wCL] ∧
    Concrete.wCL.props.map Prod.fst =
      ["CL_length", "elvRange", "CF_elv", "CF_lat", "CF_long",
       "nonF_elv", "nonF_lat", "nonF_long", "CL_ID"] ∧
    Concrete.wCL.props.map Prod.fst ≠ ["CL_length", "elvRange"] :=
  ⟨wOut_eval, by decide, by decide⟩

/-- C4 (amended): every constructed centerline comes from a qualified
buffer on which the combined reducer returned the minimum closed-forest
elevation with its pixel coordinates and the maximum non-forested elevation
with its pixel coordinates; the centerline is the LineString connecting
those two pixels; it is created with the two new scalar attributes
CL_length (the length of that LineString) and elvRange (the maximum
non-forested elevation minus the minimum closed-forest elevation), followed
by the buffer's properties copied except count and
medialAxis_sqDist_inPixels, and the CL_ID random column. -/
theorem constructTransectCLs_extremes
    (lineLength : (ℚ × ℚ) → (ℚ × ℚ) → ℚ) (rnd : ℕ → ℚ)
    (basins : List Basin) (ctds : List PxCtdFtr) (img : List RasterPixel)
    (hfresh : ∀ c ∈ ctds, ∀ k ∈ reservedKeys, getProp c.props k = none) :
    ∀ cl ∈ constructTransectCLs_byBasin lineLength rnd basins ctds img,
    ∃ (basin : Basin) (r : ReducedBuffer) (j : ℕ)
      (cfe cfla cflo nfe nfla nflo : ℚ),
      basin ∈ basins ∧
      r ∈ (reduceRegions_combined img
        (pxCtd_Buffers (ctds.filter basin.memb))).filter selectBuffer ∧
      r.CF = some (cfe, cfla, cflo) ∧
      r.nonF = some (nfe, nfla, nflo) ∧
      (cfe, cfla, cflo) ∈
        (img.filter (inBuffer r.buffer)).filterMap create_CF_elvCoords ∧
      (∀ t ∈ (img.filter (inBuffer r.buffer)).filterMap create_CF_elvCoords,
        cfe ≤ t.1) ∧
      (nfe, nfla, nflo) ∈
        (img.filter (inBuffer r.buffer)).filterMap create_nonF_elvCoords ∧
      (∀ t ∈ (img.filter (inBuffer r.buffer)).filterMap
          create_nonF_elvCoords, t.1 ≤ nfe) ∧
      cl.geometry = ((cflo, cfla), (nflo, nfla)) ∧
      cl.props =
        ("CL_length", lineLength (cflo, cfla) (nflo, nfla)) ::
        ("elvRange", nfe - cfe) ::
        (r.props.filter (fun kv => !(copyExclude.contains kv.1)) ++
          [("CL_ID", rnd j)]) ∧
      getProp cl.props "CL_length" =
        some (lineLength (cflo, cfla) (nflo, nfla)) ∧
      getProp cl.props "elvRange" = some (nfe - cfe) := by
  intro cl hcl
  obtain ⟨basin, hbasin, r, hr, cl0, hmk, j, rfl⟩ :=
    constructTransectCLs_mem lineLength rnd basins ctds img cl hcl
  obtain ⟨hbufmem, hCFdef, hnFdef⟩ :=
    reduceRegions_mem img _ r (List.mem_filter.mp hr).1
  have hctd : r.buffer.ctd ∈ ctds :=
    (List.mem_filter.mp (pxCtd_Buffers_mem _ _ hbufmem).1).1
  obtain ⟨hg1, hg2, hg3, hg4, hg5, hg6⟩ :=
    reducedBuffer_getProp r (hfresh _ hctd)
  unfold mkCL at hmk
  rcases hCF : r.CF with _ | ⟨cfe, cfla, cflo⟩
  · rw [hCF] at hg3
    simp only [Option.map_none'] at hg3
    rw [hg3] at hmk
    simp at hmk
  rcases hnF : r.nonF with _ | ⟨nfe, nfla, nflo⟩
  · rw [hCF] at hg2 hg3
    rw [hnF] at hg6
    simp only [Option.map_some', Option.map_none'] at hg2 hg3 hg6
    rw [hg3, hg2, hg6] at hmk
    simp at hmk
  rw [hCF] at hg1 hg2 hg3
  rw [hnF] at hg4 hg5 hg6
  simp only [Option.map_some'] at hg1 hg2 hg3 hg4 hg5 hg6
  rw [hg3, hg2, hg6, hg5, hg4, hg1] at hmk
  rcases Option.some_inj.mp hmk with rfl
  have hCFmin : reduceMin ((img.filter (inBuffer r.buffer)).filterMap
      create_CF_elvCoords) = some (cfe, cfla, cflo) := by
    rw [← hCFdef, hCF]
  have hnFmax : reduceMax ((img.filter (inBuffer r.buffer)).filterMap
      create_nonF_elvCoords) = some (nfe, nfla, nflo) := by
    rw [← hnFdef, hnF]
  obtain ⟨hmemCF, hminCF⟩ := reduceMin_spec _ _ hCFmin
  obtain ⟨hmemnF, hmaxnF⟩ := reduceMax_spec _ _ hnFmax
  refine ⟨basin, r, j, cfe, cfla, cflo, nfe, nfla, nflo, hbasin, hr, hCF,
    hnF, hmemCF, ?_, hmemnF, ?_, rfl, rfl, ?_, ?_⟩
  · intro t ht
    exact hminCF t ht
  · intro t ht
    exact hmaxnF t ht
  · show getProp (("CL_length", lineLength (cflo, cfla) (nflo, nfla)) ::
      ("elvRange", nfe - cfe) ::
      (r.props.filter (fun kv => !(copyExclude.contains kv.1)) ++
        [("CL_ID", rnd j)])) "CL_length" =
      some (lineLength (cflo, cfla) (nflo, nfla))
    rw [getProp_cons_self]
  · show getProp (("CL_length", lineLength (cflo, cfla) (nflo, nfla)) ::
      ("elvRange", nfe - cfe) ::
      (r.props.filter (fun kv => !(copyExclude.contains kv.1)) ++
        [("CL_ID", rnd j)])) "elvRange" = some (nfe - cfe)
    rw [getProp_cons_ne, getProp_cons_self]
    decide

/-- Witness for C4 (amended) at the one-basin scene: the constructed
centerline wCL connects the lowest closed-forest pixel (elevation 100 at
(30, 0)) with the highest non-forested pixel (elevation 200 at (0, 30)). -/
theorem constructTransectCLs_extremes_witness :
    Concrete.wCL ∈ Concrete.wOut ∧
    (∃ (basin : Basin) (r : ReducedBuffer) (j : ℕ)
      (cfe cfla cflo nfe nfla nflo : ℚ),
      basin ∈ [Concrete.wBasin] ∧
      r ∈ (reduceRegions_combined [Concrete.wPxCF, Concrete.wPxNonF]
        (pxCtd_Buffers ([Concrete.wCtd].filter basin.memb))).filter
          selectBuffer ∧
      r.CF = some (cfe, cfla, cflo) ∧
      r.nonF = some (nfe, nfla, nflo) ∧
      (cfe, cfla, cflo) ∈
        (([Concrete.wPxCF, Concrete.wPxNonF].filter
          (inBuffer r.buffer)).filterMap create_CF_elvCoords) ∧
      (∀ t ∈ ([Concrete.wPxCF, Concrete.wPxNonF].filter
          (inBuffer r.buffer)).filterMap create_CF_elvCoords, cfe ≤ t.1) ∧
      (nfe, nfla, nflo) ∈
        (([Concrete.wPxCF, Concrete.wPxNonF].filter
          (inBuffer r.buffer)).filterMap create_nonF_elvCoords) ∧
      (∀ t ∈ ([Concrete.wPxCF, Concrete.wPxNonF].filter
          (inBuffer r.buffer)).filterMap create_nonF_elvCoords,
        t.1 ≤ nfe) ∧
      Concrete.wCL.geometry = ((cflo, cfla), (nflo, nfla)) ∧
      Concrete.wCL.props =
        ("CL_length", Concrete.wLineLength (cflo, cfla) (nflo, nfla)) ::
        ("elvRange", nfe - cfe) ::
        (r.props.filter (fun kv => !(copyExclude.contains kv.1)) ++
          [("CL_ID", Concrete.wRnd j)]) ∧
      getProp Concrete.wCL.props "CL_length" =
        some (Concrete.wLineLength (cflo, cfla) (nflo, nfla)) ∧
      getProp Concrete.wCL.props "elvRange" = some (nfe - cfe)) :=
  ⟨by rw [wOut_eval]; exact List.mem_cons_self _ _,
   constructTransectCLs_extremes Concrete.wLineLength Concrete.wRnd
     [Concrete.wBasin] [Concrete.wCtd] [Concrete.wPxCF, Concrete.wPxNonF]
     (by decide) Concrete.wCL
     (by
       have h0 : constructTransectCLs_byBasin Concrete.wLineLength
           Concrete.wRnd [Concrete.wBasin] [Concrete.wCtd]
           [Concrete.wPxCF, Concrete.wPxNonF] = Concrete.wOut := rfl
       rw [h0, wOut_eval]
       exact List.mem_cons_self _ _)⟩

end CenterlineClaims

end ATET
